import Mathlib

/-!
Verification of the instance-type derivation engine
(`pkg/cloudprovider/aws/instancetype.go` together with the label/architecture
vocabulary of `pkg/cloudprovider/aws/apis/v1alpha1`).

Shallow embedding conventions:
* Go `int64`/`int32` machine integers are modelled as `Int`; no computation in
  the source comes near the 64-bit boundary for valid metadata, and the one
  `int32` conversion (in `memory()`) is in range for every physically
  meaningful memory size.
* Go `float64` constants (`0.925`, the four overhead band percentages, the
  price weights) are modelled as exact rationals (`ℚ`).  On every reachable
  operand range the float computations of the source round to exactly the
  same integers as the exact rational computations modelled here (the
  products involved are at least `0.01` away from the nearest integer unless
  they are exact, and the accumulated rounding error is below half an ulp).
* Optional pointers (`*int64`, `*string`, optional metadata sections) are
  modelled as `Option`; `aws.Int64Value`/`aws.StringValue` (nil ⇒ zero value)
  become `Option.getD 0` / `Option.getD ""`.
* `v1.ResourceList` and `scheduling.Requirements` are string-keyed maps in
  the source; they are modelled as association lists with pairwise-distinct
  keys, read through `List.lookup`.  Quantities are stored as the integer
  magnitude in the unit the source uses for that entry (noted per entry).
-/

namespace KarpenterAWS

/-! ### Label and architecture vocabulary (apis/v1alpha1/register.go) -/

def LabelDomain : String := "karpenter.k8s.aws"

def InstanceFamilyLabelKey : String := LabelDomain ++ "/instance.family"

def InstanceSizeLabelKey : String := LabelDomain ++ "/instance.size"

def InstanceCPULabelKey : String := LabelDomain ++ "/instance.cpu"

def InstanceMemoryLabelKey : String := LabelDomain ++ "/instance.memory"

def InstanceGPUNameLabelKey : String := LabelDomain ++ "/instance.gpu.name"

def InstanceGPUManufacturerLabelKey : String := LabelDomain ++ "/instance.gpu.manufacturer"

def InstanceGPUCountLabelKey : String := LabelDomain ++ "/instance.gpu.count"

def InstanceGPUMemoryLabelKey : String := LabelDomain ++ "/instance.gpu.memory"

/-- Canonical architecture identifier `v1alpha5.ArchitectureAmd64`. -/
def ArchitectureAmd64 : String := "amd64"

/-- Canonical architecture identifier `v1alpha5.ArchitectureArm64`. -/
def ArchitectureArm64 : String := "arm64"

/-- Source `AWSToKubeArchitectures`: the static two-entry cloud→canonical table,
as an association list (the source is a Go map with these two entries). -/
def AWSToKubeArchitectures : List (String × String) :=
  [("x86_64", ArchitectureAmd64), (ArchitectureArm64, ArchitectureArm64)]

/-- Source `v1alpha5.OperatingSystemLinux` (the single supported OS value). -/
def OperatingSystemLinux : String := "linux"

/-- Well-known upstream label keys (values of the k8s constants used by
`computeRequirements`; only their pairwise distinctness from the
domain-specific keys matters for the claims). -/
def LabelInstanceTypeStable : String := "node.kubernetes.io/instance-type"

def LabelArchStable : String := "kubernetes.io/arch"

def LabelOSStable : String := "kubernetes.io/os"

def LabelTopologyZone : String := "topology.kubernetes.io/zone"

def LabelCapacityType : String := "karpenter.sh/capacity-type"

/-! ### Raw metadata (`ec2.InstanceTypeInfo`) and configuration -/

/-- One entry of `GpuInfo.Gpus` (`ec2.GpuDeviceInfo`): a GPU model together
with how many of it the machine type has.  `memorySizeInMiB` is
`MemoryInfo.SizeInMiB` (the enclosing `MemoryInfo` pointer is always
dereferenced by the source and is assumed present). -/
structure GpuDeviceInfo where
  name : Option String
  manufacturer : Option String
  count : Option Int
  memorySizeInMiB : Option Int
deriving DecidableEq

/-- Source `ec2.GpuInfo`. -/
structure GpuInfo where
  gpus : List GpuDeviceInfo
deriving DecidableEq

/-- One entry of `InferenceAcceleratorInfo.Accelerators`. -/
structure InferenceDeviceInfo where
  count : Option Int
deriving DecidableEq

/-- Source `ec2.InferenceAcceleratorInfo`. -/
structure InferenceAcceleratorInfo where
  accelerators : List InferenceDeviceInfo
deriving DecidableEq

/-- Source `ec2.NetworkInfo` (both fields always dereferenced by the source). -/
structure NetworkInfo where
  maximumNetworkInterfaces : Int
  ipv4AddressesPerInterface : Int
deriving DecidableEq

/-- Source `ec2.VCpuInfo`. -/
structure VCpuInfo where
  defaultVCpus : Int
deriving DecidableEq

/-- Source `ec2.MemoryInfo`. -/
structure MemoryInfo where
  sizeInMiB : Int
deriving DecidableEq

/-- Source `ec2.InstanceStorageInfo`. -/
structure InstanceStorageInfo where
  totalSizeInGB : Int
deriving DecidableEq

/-- Source `ec2.ProcessorInfo`; the `[]*string` of supported architectures is read
elementwise through `aws.StringValue`, so it is modelled as `List String`. -/
structure ProcessorInfo where
  supportedArchitectures : List String
deriving DecidableEq

/-- The fields of `ec2.InstanceTypeInfo` that the derivation engine reads. -/
structure InstanceTypeInfo where
  instanceType : String
  vCpuInfo : VCpuInfo
  memoryInfo : MemoryInfo
  gpuInfo : Option GpuInfo
  inferenceAcceleratorInfo : Option InferenceAcceleratorInfo
  instanceStorageInfo : Option InstanceStorageInfo
  networkInfo : NetworkInfo
  processorInfo : ProcessorInfo
deriving DecidableEq

/-- One entry of `provider.BlockDeviceMappings`: device name and the
magnitude of `EBS.VolumeSize`. -/
structure BlockDeviceMapping where
  deviceName : String
  volumeSize : Int
deriving DecidableEq

/-- The fields of the `v1alpha1.AWS` provisioning config that the engine
reads. -/
structure AWSProvider where
  amiFamily : Option String
  blockDeviceMappings : Option (List BlockDeviceMapping)
deriving DecidableEq

/-- Source `cloudprovider.Offering`. -/
structure Offering where
  zone : String
  capacityType : String
deriving DecidableEq

/-- The `InstanceType` composition root: embedded raw metadata, offerings,
provisioning config and the explicit pod-capacity override `maxPods`. -/
structure InstanceType where
  info : InstanceTypeInfo
  offerings : List Offering
  provider : AWSProvider
  maxPods : Option Int
deriving DecidableEq

/-- Modelled from the spec: the AMI-family lookup (`amifamily.GetAMIFamily`,
`EphemeralBlockDevice()`, the declared default volume size and the
per-family ephemeral-storage overhead constant) is repository code that is
not under `src/`; per the spec it is an external collaborator returning the
family's root block-device name, its default volume size, and a constant
storage-overhead magnitude. -/
structure AMIFamilyInfo where
  ephemeralBlockDevice : String
  defaultVolumeSize : Int
  ephemeralBlockDeviceOverhead : Int
deriving DecidableEq

/-- Modelled from the spec: one entry of the branch-interface capability
table `vpc.Limits` (external collaborator, keyed by machine-type name). -/
structure VPCLimits where
  isTrunkingCompatible : Bool
  branchInterface : Int
deriving DecidableEq

/-! ### Derivation functions (instancetype.go) -/

/-- Source `lowerKabobCase`: `strings.ToLower(strings.ReplaceAll(s, " ", "-"))`.
Both Go functions act character-by-character (the pattern is the single
character `' '`), so the composition is a single character map; case
mapping is modelled for the ASCII range, which covers the EC2 metadata
strings. -/
def lowerKabobCase (s : String) : String :=
  String.mk (s.data.map (fun c => (if c = ' ' then '-' else c).toLower))

/-- Source `strings.Split(s, ".")` on the character list, right-to-left fold:
splitting at every separator occurrence, keeping empty segments
(`Split` never returns fewer than one segment). -/
def splitDotAux : List Char → List (List Char)
  | [] => [[]]
  | c :: cs =>
    match splitDotAux cs with
    | [] => [[]]
    | g :: gs => if c = '.' then [] :: g :: gs else (c :: g) :: gs

/-- Source `strings.Split(name, ".")`. -/
def splitDot (s : String) : List String :=
  (splitDotAux s.data).map String.mk

/-- The space-separated rendering `fmt.Sprint` applies inside the brackets
of a string-slice value. -/
def joinSpace : List String → String
  | [] => ""
  | [s] => s
  | s :: rest => s ++ " " ++ joinSpace rest

/-- Source `fmt.Sprint(aws.StringValueSlice(xs))`: a Go string slice prints as
`"[a b c]"`. -/
def sprintStringSlice (l : List String) : String :=
  "[" ++ joinSpace l ++ "]"

/-- Source `architecture()`: return the canonical value of the first reported
identifier found in `AWSToKubeArchitectures`; otherwise the raw list
rendered as a diagnostic string. -/
def architecture (i : InstanceType) : String :=
  match i.info.processorInfo.supportedArchitectures.findSome?
      (fun a => AWSToKubeArchitectures.lookup a) with
  | some value => value
  | none => sprintStringSlice i.info.processorInfo.supportedArchitectures

/-- Source `eniLimitedPods()`: `MaximumNetworkInterfaces * (Ipv4AddressesPerInterface - 1) + 2`. -/
def eniLimitedPods (i : InstanceType) : Int :=
  i.info.networkInfo.maximumNetworkInterfaces *
    (i.info.networkInfo.ipv4AddressesPerInterface - 1) + 2

/-- Source `pods()`: the explicit `maxPods` override verbatim when supplied,
otherwise the ENI-limited count. -/
def pods (i : InstanceType) : Int :=
  match i.maxPods with
  | some m => m
  | none => eniLimitedPods i

/-- Source `cpu()` as a milli-quantity: the parsed vCPU count has
`MilliValue = vCPU × 1000`. -/
def cpuMilli (i : InstanceType) : Int :=
  i.info.vCpuInfo.defaultVCpus * 1000

/-- Source `EC2VMAvailableMemoryFactor = .925` as an exact rational. -/
def EC2VMAvailableMemoryFactor : ℚ := 925 / 1000

/-- Source `memory()` in MiB: `int32(float64(SizeInMiB) * EC2VMAvailableMemoryFactor)`.
The float-to-`int32` conversion truncates toward zero; `Int.div` is
truncating division, so this is the exact value of the source computation
for every size whose scaled value is `int32`-representable (the float
product never strays far enough from `size × 925/1000` to change the
truncation: the fractional parts are multiples of `1/40`). -/
def memory (i : InstanceType) : Int :=
  Int.tdiv (i.info.memoryInfo.sizeInMiB * 925) 1000

/-- Source `ephemeralStorage()` in the volume-size unit: the first block-device
override whose device name equals the AMI family's ephemeral block-device
name wins; otherwise the declared default volume size. -/
def ephemeralStorage (fam : AMIFamilyInfo) (i : InstanceType) : Int :=
  match i.provider.blockDeviceMappings with
  | some blockDeviceMappings =>
      match blockDeviceMappings.find?
          (fun blockDevice => blockDevice.deviceName == fam.ephemeralBlockDevice) with
      | some blockDevice => blockDevice.volumeSize
      | none => fam.defaultVolumeSize
  | none => fam.defaultVolumeSize

/-- Source `awsPodENI()`: branch-interface count when the feature flag is on, the
machine type is in the capability table and marked trunking-compatible;
otherwise 0. -/
def awsPodENI (enablePodENI : Bool) (vpcLimits : String → Option VPCLimits)
    (i : InstanceType) : Int :=
  match vpcLimits i.info.instanceType with
  | some limits =>
      if enablePodENI && limits.isTrunkingCompatible then limits.branchInterface else 0
  | none => 0

/-- Source `nvidiaGPUs()`: sum of GPU counts whose manufacturer is `"NVIDIA"`
(the source dereferences `Manufacturer`/`Count` unconditionally; absent
pointers are modelled through `getD`). -/
def nvidiaGPUs (i : InstanceType) : Int :=
  match i.info.gpuInfo with
  | some gpuInfo =>
      gpuInfo.gpus.foldl
        (fun count gpu =>
          if gpu.manufacturer.getD "" == "NVIDIA" then count + gpu.count.getD 0 else count) 0
  | none => 0

/-- Source `amdGPUs()`: sum of GPU counts whose manufacturer is `"AMD"`. -/
def amdGPUs (i : InstanceType) : Int :=
  match i.info.gpuInfo with
  | some gpuInfo =>
      gpuInfo.gpus.foldl
        (fun count gpu =>
          if gpu.manufacturer.getD "" == "AMD" then count + gpu.count.getD 0 else count) 0
  | none => 0

/-- Source `awsNeurons()`: sum of all inference-accelerator counts. -/
def awsNeurons (i : InstanceType) : Int :=
  match i.info.inferenceAcceleratorInfo with
  | some info => info.accelerators.foldl (fun count a => count + a.count.getD 0) 0
  | none => 0

/-- Source `smarterDevicesFuse()`: the constant 1. -/
def smarterDevicesFuse : Int := 1

/-- Source `computeResources()`: the allocatable resource list.  Magnitudes: `cpu`
in whole vCPUs, `memory` in MiB, `ephemeral-storage` in the volume-size
unit, the rest are plain counts.  (The source builds a string-keyed map;
the keys are pairwise distinct.) -/
def computeResources (enablePodENI : Bool) (vpcLimits : String → Option VPCLimits)
    (fam : AMIFamilyInfo) (i : InstanceType) : List (String × Int) :=
  [("cpu", i.info.vCpuInfo.defaultVCpus),
   ("memory", memory i),
   ("ephemeral-storage", ephemeralStorage fam i),
   ("pods", pods i),
   ("vpc.amazonaws.com/pod-eni", awsPodENI enablePodENI vpcLimits i),
   ("nvidia.com/gpu", nvidiaGPUs i),
   ("amd.com/gpu", amdGPUs i),
   ("aws.amazon.com/neuron", awsNeurons i),
   ("smarter-devices/fuse", smarterDevicesFuse)]

/-- One band of the kube-reserved CPU-overhead table (`end` is a reserved
word in Lean, hence the field name `stop`). -/
structure CPURange where
  start : Int
  stop : Int
  percentage : ℚ

/-- The four-band table of `computeOverhead()` (percentages exact). -/
def kubeReservedCPURanges : List CPURange :=
  [⟨0, 1000, 6 / 100⟩,
   ⟨1000, 2000, 1 / 100⟩,
   ⟨2000, 4000, 5 / 1000⟩,
   ⟨4000, 2 ^ 31, 25 / 10000⟩]

/-- The CPU entry of `computeOverhead()` in milli-units: start from 100
(system-reserved) and for each band whose start the instance's milli-CPU
reaches, add `int64(r × percentage)` where `r` is the portion of the band
the instance covers.  The Go `int64` conversion truncates toward zero,
which on the (always non-negative) band products equals `Rat.floor`. -/
def overheadCPUMilliOf (cpu : Int) : Int :=
  kubeReservedCPURanges.foldl
    (fun acc cpuRange =>
      if cpu ≥ cpuRange.start then
        let r : Int := if cpu < cpuRange.stop then cpu - cpuRange.start
                       else cpuRange.stop - cpuRange.start
        acc + ((r : ℚ) * cpuRange.percentage).floor
      else acc) 100

/-- The CPU entry of `computeOverhead()` for an instance type. -/
def overheadCPUMilli (i : InstanceType) : Int :=
  overheadCPUMilliOf (cpuMilli i)

/-- The memory entry of `computeOverhead()` in MiB: kube-reserved
`11 × eniLimitedPods + 255`, plus system-reserved 100, plus the eviction
threshold 100. -/
def overheadMemoryMiB (i : InstanceType) : Int :=
  ((11 * eniLimitedPods i) + 255) + 100 + 100

/-- Source `computeOverhead()`: `cpu` in milli-units, `memory` in MiB,
`ephemeral-storage` the AMI family's declared overhead constant. -/
def computeOverhead (fam : AMIFamilyInfo) (i : InstanceType) : List (String × Int) :=
  [("cpu", overheadCPUMilli i),
   ("memory", overheadMemoryMiB i),
   ("ephemeral-storage", fam.ephemeralBlockDeviceOverhead)]

/-- The well-known and resource labels `computeRequirements()` always
emits (zone and capacity-type sets are the values drawn from the
offerings). -/
def baseRequirements (i : InstanceType) : List (String × List String) :=
  [(LabelInstanceTypeStable, [i.info.instanceType]),
   (LabelArchStable, [architecture i]),
   (LabelOSStable, [OperatingSystemLinux]),
   (LabelTopologyZone, i.offerings.map (fun o => o.zone)),
   (LabelCapacityType, i.offerings.map (fun o => o.capacityType)),
   (InstanceCPULabelKey, [toString i.info.vCpuInfo.defaultVCpus]),
   (InstanceMemoryLabelKey, [toString i.info.memoryInfo.sizeInMiB])]

/-- The `// Instance Type Labels` block of `computeRequirements()`:
family/size labels only when the name splits into exactly two parts. -/
def familySizeRequirements (i : InstanceType) : List (String × List String) :=
  match splitDot i.info.instanceType with
  | [family, size] =>
      [(InstanceFamilyLabelKey, [family]), (InstanceSizeLabelKey, [size])]
  | _ => []

/-- The `// GPU Labels` block of `computeRequirements()`: the four GPU
labels only when `GpuInfo` is present and lists exactly one descriptor. -/
def gpuRequirements (i : InstanceType) : List (String × List String) :=
  match i.info.gpuInfo with
  | some gpuInfo =>
      match gpuInfo.gpus with
      | [gpu] =>
          [(InstanceGPUNameLabelKey, [lowerKabobCase (gpu.name.getD "")]),
           (InstanceGPUManufacturerLabelKey, [lowerKabobCase (gpu.manufacturer.getD "")]),
           (InstanceGPUCountLabelKey, [toString (gpu.count.getD 0)]),
           (InstanceGPUMemoryLabelKey, [toString (gpu.memorySizeInMiB.getD 0)])]
      | _ => []
  | none => []

/-- Source `computeRequirements()` as an association list (the source builds a
string-keyed map whose keys are pairwise distinct; `requirements.Add`
inserts the family/size and GPU groups under fresh keys). -/
def computeRequirements (i : InstanceType) : List (String × List String) :=
  baseRequirements i ++ familySizeRequirements i ++ gpuRequirements i

/-- Source `Price()`: the dimensionless cost heuristic, with the float weights as
exact rationals (`1/1024.0` is exactly `1/1024`; the remaining inputs are
integers, so the float sum of the source equals this exact value whenever
it is below the 2⁵³ precision bound, far beyond valid metadata). -/
def Price (i : InstanceType) : ℚ :=
  let gpuCount : ℚ :=
    match i.info.gpuInfo with
    | some gpuInfo =>
        gpuInfo.gpus.foldl
          (fun acc gpu => match gpu.count with
            | some c => acc + (c : ℚ)
            | none => acc) 0
    | none => 0
  let infCount : ℚ :=
    match i.info.inferenceAcceleratorInfo with
    | some info =>
        info.accelerators.foldl
          (fun acc a => match a.count with
            | some c => acc + (c : ℚ)
            | none => acc) 0
    | none => 0
  let localStorageGiBs : ℚ :=
    match i.info.instanceStorageInfo with
    | some storage => 0 + (storage.totalSizeInGB : ℚ)
    | none => 0
  1 * (i.info.vCpuInfo.defaultVCpus : ℚ) +
    (1 / 1024) * (i.info.memoryInfo.sizeInMiB : ℚ) +
    5 * gpuCount + 5 * infCount +
    localStorageGiBs * (1 / 100)

/-! ### Specification-side formulas (for refinement comparison) -/

/-- The CPU-overhead formula exactly as the specification words it: a base
of 100 milli-units plus, for each band whose start is ≤ the instance's
total milli-CPU, the exact (real-valued) quantity
`(min(total, band.end) − band.start) × band.rate`. -/
def specCPUOverheadQ (total : Int) : ℚ :=
  100 + kubeReservedCPURanges.foldl
    (fun acc b =>
      if b.start ≤ total then acc + ((min total b.stop - b.start : Int) : ℚ) * b.percentage
      else acc) 0

/-- The specification's CPU-overhead formula amended by the truncation the
source performs: each band's product is floored to an integer milli count
before being added. -/
def specCPUOverheadFloored (total : Int) : Int :=
  100 + kubeReservedCPURanges.foldl
    (fun acc b =>
      if b.start ≤ total then
        acc + (((min total b.stop - b.start : Int) : ℚ) * b.percentage).floor
      else acc) 0

/-! ### Concrete instance types used by witnesses and counterexamples -/

/-- Metadata with no GPU/accelerator/local-storage sections. -/
def simpleInfo (name : String) (vcpus memMiB eni ipv4 : Int) : InstanceTypeInfo :=
  { instanceType := name
    vCpuInfo := ⟨vcpus⟩
    memoryInfo := ⟨memMiB⟩
    gpuInfo := none
    inferenceAcceleratorInfo := none
    instanceStorageInfo := none
    networkInfo := ⟨eni, ipv4⟩
    processorInfo := ⟨["x86_64"]⟩ }

/-- An instance type with plain metadata, no offerings, an empty provider
config and no pod-capacity override. -/
def simpleInstance (name : String) (vcpus memMiB eni ipv4 : Int) : InstanceType :=
  { info := simpleInfo name vcpus memMiB eni ipv4
    offerings := []
    provider := ⟨none, none⟩
    maxPods := none }

/-- A 5-vCPU instance type (the input on which the exact-band formula and
the source's truncating computation differ). -/
def it5 : InstanceType := simpleInstance "c5.xlarge" 5 8192 3 10

/-- A 2-vCPU instance type. -/
def it2 : InstanceType := simpleInstance "m5.large" 2 8192 3 10

/-- A generic AMI-family collaborator value for witnesses. -/
def famA : AMIFamilyInfo := ⟨"/dev/xvda", 20, 5⟩

/-! ### Arithmetic helper lemmas -/

lemma ratFloor_eq_intFloor (q : ℚ) : q.floor = ⌊q⌋ := by
  rw [Rat.floor_def', Rat.floor_def]

lemma floor_rate6 (r : Int) : ((r : ℚ) * (6 / 100)).floor = r * 6 / 100 := by
  rw [ratFloor_eq_intFloor]
  have h : (r : ℚ) * (6 / 100) = ((r * 6 : Int) : ℚ) / ((100 : ℕ) : ℚ) := by
    push_cast; ring
  rw [h, Rat.floor_intCast_div_natCast]
  norm_num

lemma floor_rate1 (r : Int) : ((r : ℚ) * (1 / 100)).floor = r / 100 := by
  rw [ratFloor_eq_intFloor]
  have h : (r : ℚ) * (1 / 100) = ((r : Int) : ℚ) / ((100 : ℕ) : ℚ) := by
    push_cast; ring
  rw [h, Rat.floor_intCast_div_natCast]
  norm_num

lemma floor_rate5 (r : Int) : ((r : ℚ) * (5 / 1000)).floor = r * 5 / 1000 := by
  rw [ratFloor_eq_intFloor]
  have h : (r : ℚ) * (5 / 1000) = ((r * 5 : Int) : ℚ) / ((1000 : ℕ) : ℚ) := by
    push_cast; ring
  rw [h, Rat.floor_intCast_div_natCast]
  norm_num

lemma floor_rate25 (r : Int) : ((r : ℚ) * (25 / 10000)).floor = r * 25 / 10000 := by
  rw [ratFloor_eq_intFloor]
  have h : (r : ℚ) * (25 / 10000) = ((r * 25 : Int) : ℚ) / ((10000 : ℕ) : ℚ) := by
    push_cast; ring
  rw [h, Rat.floor_intCast_div_natCast]
  norm_num

/-- Closed integer form of the source's CPU-overhead computation. -/
lemma overheadCPUMilliOf_eq (cpu : Int) :
    overheadCPUMilliOf cpu =
      100 + (if 0 ≤ cpu then (if cpu < 1000 then cpu - 0 else 1000 - 0) * 6 / 100 else 0)
        + (if 1000 ≤ cpu then (if cpu < 2000 then cpu - 1000 else 1000) / 100 else 0)
        + (if 2000 ≤ cpu then (if cpu < 4000 then cpu - 2000 else 2000) * 5 / 1000 else 0)
        + (if 4000 ≤ cpu then
            (if cpu < 2 ^ 31 then cpu - 4000 else 2 ^ 31 - 4000) * 25 / 10000 else 0) := by
  simp only [overheadCPUMilliOf, kubeReservedCPURanges, List.foldl, ge_iff_le,
    floor_rate6, floor_rate1, floor_rate5, floor_rate25]
  split_ifs <;> omega

/-- Closed integer form of the amended specification formula. -/
lemma specCPUOverheadFloored_eq (total : Int) :
    specCPUOverheadFloored total =
      100 + (if 0 ≤ total then (min total 1000 - 0) * 6 / 100 else 0)
        + (if 1000 ≤ total then (min total 2000 - 1000) / 100 else 0)
        + (if 2000 ≤ total then (min total 4000 - 2000) * 5 / 1000 else 0)
        + (if 4000 ≤ total then (min total (2 ^ 31) - 4000) * 25 / 10000 else 0) := by
  simp only [specCPUOverheadFloored, kubeReservedCPURanges, List.foldl,
    floor_rate6, floor_rate1, floor_rate5, floor_rate25]
  split_ifs <;> omega

/-- The source's CPU-overhead computation equals the amended (per-band
floored) specification formula. -/
lemma overheadCPUMilliOf_eq_specFloored (cpu : Int) :
    overheadCPUMilliOf cpu = specCPUOverheadFloored cpu := by
  rw [overheadCPUMilliOf_eq, specCPUOverheadFloored_eq]
  have h1 : (if cpu < 1000 then cpu - 0 else 1000 - 0) = min cpu 1000 - 0 := by
    rcases lt_or_le cpu 1000 with h | h
    · rw [if_pos h, min_eq_left h.le]
    · rw [if_neg (not_lt.mpr h), min_eq_right h]
  have h2 : (if cpu < 2000 then cpu - 1000 else 1000) = min cpu 2000 - 1000 := by
    rcases lt_or_le cpu 2000 with h | h
    · rw [if_pos h, min_eq_left h.le]
    · rw [if_neg (not_lt.mpr h), min_eq_right h]; omega
  have h3 : (if cpu < 4000 then cpu - 2000 else 2000) = min cpu 4000 - 2000 := by
    rcases lt_or_le cpu 4000 with h | h
    · rw [if_pos h, min_eq_left h.le]
    · rw [if_neg (not_lt.mpr h), min_eq_right h]; omega
  have h4 : (if cpu < 2 ^ 31 then cpu - 4000 else 2 ^ 31 - 4000)
      = min cpu (2 ^ 31) - 4000 := by
    rcases lt_or_le cpu (2 ^ 31) with h | h
    · rw [if_pos h, min_eq_left h.le]
    · rw [if_neg (not_lt.mpr h), min_eq_right h]
  rw [h1, h2, h3, h4]

/-! ### Association-list helper lemmas -/

lemma lookup_cons_ne {β : Type} {k a : String} {v : β} {l : List (String × β)}
    (h : (a == k) = false) : ((k, v) :: l).lookup a = l.lookup a := by
  simp [List.lookup_cons, h]

lemma lookup_cons_self {β : Type} {k : String} {v : β} {l : List (String × β)} :
    ((k, v) :: l).lookup k = some v := by
  simp [List.lookup_cons]

lemma lookup_append_of_left_none {β : Type} {l₁ l₂ : List (String × β)} {a : String}
    (h : l₁.lookup a = none) : (l₁ ++ l₂).lookup a = l₂.lookup a := by
  induction l₁ with
  | nil => simp
  | cons p t ih =>
      rcases p with ⟨k, v⟩
      rcases hak : a == k with _ | _
      · simp only [List.cons_append, List.lookup_cons, hak] at h ⊢
        exact ih h
      · simp only [List.lookup_cons, hak] at h
        cases h

lemma lookup_base_ne (i : InstanceType) (a : String)
    (h1 : (a == LabelInstanceTypeStable) = false)
    (h2 : (a == LabelArchStable) = false)
    (h3 : (a == LabelOSStable) = false)
    (h4 : (a == LabelTopologyZone) = false)
    (h5 : (a == LabelCapacityType) = false)
    (h6 : (a == InstanceCPULabelKey) = false)
    (h7 : (a == InstanceMemoryLabelKey) = false) :
    (baseRequirements i).lookup a = none := by
  unfold baseRequirements
  rw [lookup_cons_ne h1, lookup_cons_ne h2, lookup_cons_ne h3, lookup_cons_ne h4,
    lookup_cons_ne h5, lookup_cons_ne h6, lookup_cons_ne h7, List.lookup_nil]

lemma lookup_familySize_ne (i : InstanceType) (a : String)
    (hf : (a == InstanceFamilyLabelKey) = false)
    (hs : (a == InstanceSizeLabelKey) = false) :
    (familySizeRequirements i).lookup a = none := by
  unfold familySizeRequirements
  split
  · rw [lookup_cons_ne hf, lookup_cons_ne hs, List.lookup_nil]
  · rfl

lemma lookup_gpu_ne (i : InstanceType) (a : String)
    (h1 : (a == InstanceGPUNameLabelKey) = false)
    (h2 : (a == InstanceGPUManufacturerLabelKey) = false)
    (h3 : (a == InstanceGPUCountLabelKey) = false)
    (h4 : (a == InstanceGPUMemoryLabelKey) = false) :
    (gpuRequirements i).lookup a = none := by
  unfold gpuRequirements
  rcases i.info.gpuInfo with _ | gi
  · rfl
  · rcases gi with ⟨gpus⟩
    rcases gpus with _ | ⟨g, _ | ⟨g2, t⟩⟩
    · rfl
    · rw [lookup_cons_ne h1, lookup_cons_ne h2, lookup_cons_ne h3, lookup_cons_ne h4,
        List.lookup_nil]
    · rfl

lemma familySizeRequirements_eq_nil (i : InstanceType)
    (h : (splitDot i.info.instanceType).length ≠ 2) :
    familySizeRequirements i = [] := by
  rcases hsp : splitDot i.info.instanceType with _ | ⟨f, _ | ⟨s, _ | ⟨c, t⟩⟩⟩ <;>
    simp [familySizeRequirements, hsp] at h ⊢

lemma gpuRequirements_eq_nil (i : InstanceType)
    (h : ∀ gi : GpuInfo, i.info.gpuInfo = some gi → gi.gpus.length ≠ 1) :
    gpuRequirements i = [] := by
  rcases hg : i.info.gpuInfo with _ | gi
  · simp [gpuRequirements, hg]
  · have hlen := h gi hg
    rcases gi with ⟨gpus⟩
    rcases gpus with _ | ⟨g, _ | ⟨g2, t⟩⟩
    · simp [gpuRequirements, hg]
    · simp at hlen
    · simp [gpuRequirements, hg]

lemma findSome?_pre_none {α β : Type} {f : α → Option β} {v : β} (pre : List α)
    (a : α) (post : List α) (hpre : ∀ b ∈ pre, f b = none) (ha : f a = some v) :
    (pre ++ a :: post).findSome? f = some v := by
  induction pre with
  | nil => simp [List.findSome?_cons, ha]
  | cons x t ih =>
      have hx : f x = none := hpre x (by simp)
      simp only [List.cons_append, List.findSome?_cons, hx]
      exact ih (fun b hb => hpre b (by simp [hb]))

lemma sprintStringSlice_data (l : List String) :
    (sprintStringSlice l).data = '[' :: ((joinSpace l).data ++ [']']) := rfl

lemma sprintStringSlice_ne_canonical (l : List String) :
    sprintStringSlice l ≠ ArchitectureAmd64 ∧ sprintStringSlice l ≠ ArchitectureArm64 := by
  constructor <;> intro h <;>
  · have h2 := congrArg String.data h
    rw [sprintStringSlice_data] at h2
    injection h2 with hc _
    exact absurd hc (by decide)

/-! ### Price and memory helper lemmas -/

lemma floor_rate925 (r : Int) : ((r : ℚ) * (925 / 1000)).floor = r * 925 / 1000 := by
  rw [ratFloor_eq_intFloor]
  have h : (r : ℚ) * (925 / 1000) = ((r * 925 : Int) : ℚ) / ((1000 : ℕ) : ℚ) := by
    push_cast; ring
  rw [h, Rat.floor_intCast_div_natCast]
  norm_num

/-- The truncating conversion of `memory()` equals the floor of the exact
scaled size on non-negative sizes. -/
lemma memory_eq_floor (i : InstanceType) (h : 0 ≤ i.info.memoryInfo.sizeInMiB) :
    memory i = ((i.info.memoryInfo.sizeInMiB : ℚ) * EC2VMAvailableMemoryFactor).floor := by
  unfold memory EC2VMAvailableMemoryFactor
  rw [floor_rate925, Int.tdiv_eq_ediv (by omega) (by omega)]

lemma foldl_gpuCount (l : List GpuDeviceInfo) (acc : ℚ) :
    l.foldl (fun acc gpu => match gpu.count with
      | some c => acc + (c : ℚ)
      | none => acc) acc
      = acc + (((l.map (fun g => g.count.getD 0)).sum : Int) : ℚ) := by
  induction l generalizing acc with
  | nil => simp
  | cons g t ih =>
      rcases hc : g.count with _ | c <;>
        simp only [List.foldl_cons, hc, List.map_cons, List.sum_cons, ih, Option.getD] <;>
        push_cast <;> ring

lemma foldl_accCount (l : List InferenceDeviceInfo) (acc : ℚ) :
    l.foldl (fun acc a => match a.count with
      | some c => acc + (c : ℚ)
      | none => acc) acc
      = acc + (((l.map (fun a => a.count.getD 0)).sum : Int) : ℚ) := by
  induction l generalizing acc with
  | nil => simp
  | cons g t ih =>
      rcases hc : g.count with _ | c <;>
        simp only [List.foldl_cons, hc, List.map_cons, List.sum_cons, ih, Option.getD] <;>
        push_cast <;> ring

/-- Replace the vCPU count, holding every other input fixed. -/
def setVCpus (i : InstanceType) (v : Int) : InstanceType :=
  { i with info := { i.info with vCpuInfo := ⟨v⟩ } }

/-! ### Claim theorems -/

/-- C2: the pods entry of the computed resource list equals the explicit
pod-capacity override verbatim when one is supplied, and otherwise equals
`maxNetworkInterfaces × (ipv4AddressesPerInterface − 1) + 2`; with
`maxNetworkInterfaces = 3`, `ipv4AddressesPerInterface = 10` and no
override it equals 29. -/
theorem pods_entry_override_or_eni (enablePodENI : Bool)
    (vpcLimits : String → Option VPCLimits) (fam : AMIFamilyInfo) (i : InstanceType) :
    (∀ m : Int, i.maxPods = some m →
      (computeResources enablePodENI vpcLimits fam i).lookup "pods" = some m) ∧
    (i.maxPods = none →
      (computeResources enablePodENI vpcLimits fam i).lookup "pods" =
        some (i.info.networkInfo.maximumNetworkInterfaces *
          (i.info.networkInfo.ipv4AddressesPerInterface - 1) + 2)) ∧
    (i.maxPods = none → i.info.networkInfo.maximumNetworkInterfaces = 3 →
      i.info.networkInfo.ipv4AddressesPerInterface = 10 →
      (computeResources enablePodENI vpcLimits fam i).lookup "pods" = some 29) := by
  have hlook : (computeResources enablePodENI vpcLimits fam i).lookup "pods"
      = some (pods i) := by
    simp [computeResources, List.lookup]
  refine ⟨fun m hm => ?_, fun hn => ?_, fun hn h3 h10 => ?_⟩
  · rw [hlook]; simp [pods, hm]
  · rw [hlook]; simp [pods, hn, eniLimitedPods]
  · rw [hlook]; simp [pods, hn, eniLimitedPods, h3, h10]

/-- Witness for C2 at concrete inputs: an explicit override of 42 is used
verbatim, and metadata `(3, 10)` without an override yields 29. -/
theorem pods_entry_override_or_eni_witness :
    (computeResources false (fun _ => none) famA
      { simpleInstance "m5.large" 2 8192 3 10 with maxPods := some 42 }).lookup "pods"
        = some 42 ∧
    (computeResources false (fun _ => none) famA
      (simpleInstance "m5.large" 2 8192 3 10)).lookup "pods" = some 29 :=
  ⟨(pods_entry_override_or_eni false (fun _ => none) famA _).1 42 rfl,
   (pods_entry_override_or_eni false (fun _ => none) famA _).2.2 rfl rfl rfl⟩

/-- C3: the memory entry of the computed overhead equals
`(11 × p + 255) + 100 + 100` MiB where `p` is the ENI-limited pod count
`maxNetworkInterfaces × (ipv4AddressesPerInterface − 1) + 2`; it is
unchanged by any explicit pod-capacity override, and `p = 29` gives
774 MiB. -/
theorem overhead_memory_eni_formula (fam : AMIFamilyInfo) (i : InstanceType) :
    (computeOverhead fam i).lookup "memory" =
      some ((11 * (i.info.networkInfo.maximumNetworkInterfaces *
        (i.info.networkInfo.ipv4AddressesPerInterface - 1) + 2) + 255) + 100 + 100) ∧
    (∀ mp : Option Int,
      (computeOverhead fam { i with maxPods := mp }).lookup "memory" =
        (computeOverhead fam i).lookup "memory") ∧
    (eniLimitedPods i = 29 → (computeOverhead fam i).lookup "memory" = some 774) := by
  have hlook : ∀ j : InstanceType, (computeOverhead fam j).lookup "memory"
      = some (overheadMemoryMiB j) := by
    intro j; simp [computeOverhead, List.lookup]
  refine ⟨?_, fun mp => ?_, fun h29 => ?_⟩
  · rw [hlook]; simp [overheadMemoryMiB, eniLimitedPods]
  · rw [hlook, hlook]; simp [overheadMemoryMiB, eniLimitedPods]
  · rw [hlook]; simp [overheadMemoryMiB, h29]

/-- Witness for C3 at a concrete input: metadata `(3, 10)` has ENI-limited
pod count 29 and overhead memory 774 MiB, also under an override. -/
theorem overhead_memory_eni_formula_witness :
    (computeOverhead famA (simpleInstance "m5.large" 2 8192 3 10)).lookup "memory"
      = some 774 ∧
    (computeOverhead famA
      { simpleInstance "m5.large" 2 8192 3 10 with maxPods := some 1 }).lookup "memory"
      = some 774 := by
  refine ⟨(overhead_memory_eni_formula famA _).2.2 (by decide), ?_⟩
  rw [(overhead_memory_eni_formula famA (simpleInstance "m5.large" 2 8192 3 10)).2.1
    (some 1)]
  exact (overhead_memory_eni_formula famA _).2.2 (by decide)

/-- C5: the memory entry of the computed resource list equals
`⌊sizeInMiB × 0.925⌋` MiB; `sizeInMiB = 8192` yields 7577 MiB. -/
theorem memory_entry_floor_scaling (enablePodENI : Bool)
    (vpcLimits : String → Option VPCLimits) (fam : AMIFamilyInfo) (i : InstanceType)
    (hm : 0 ≤ i.info.memoryInfo.sizeInMiB) :
    (computeResources enablePodENI vpcLimits fam i).lookup "memory" =
      some (((i.info.memoryInfo.sizeInMiB : ℚ) * EC2VMAvailableMemoryFactor).floor) ∧
    (i.info.memoryInfo.sizeInMiB = 8192 →
      (computeResources enablePodENI vpcLimits fam i).lookup "memory" = some 7577) := by
  have hlook : (computeResources enablePodENI vpcLimits fam i).lookup "memory"
      = some (memory i) := by
    simp [computeResources, List.lookup]
  refine ⟨?_, fun h8192 => ?_⟩
  · rw [hlook, memory_eq_floor i hm]
  · rw [hlook]
    have : memory i = 7577 := by unfold memory; rw [h8192]; decide
    rw [this]

/-- Witness for C5 at the concrete size 8192 MiB. -/
theorem memory_entry_floor_scaling_witness :
    (computeResources false (fun _ => none) famA
      (simpleInstance "m5.large" 2 8192 3 10)).lookup "memory" = some 7577 :=
  (memory_entry_floor_scaling false (fun _ => none) famA
    (simpleInstance "m5.large" 2 8192 3 10) (by decide)).2 rfl

/-- C7: the ephemeral-storage entry of the computed resource list equals
the volume size of the (first) block-device override whose device name
matches the AMI family's declared root block-device name; with no
matching override it equals the family's declared default volume size. -/
theorem ephemeral_storage_entry (enablePodENI : Bool)
    (vpcLimits : String → Option VPCLimits) (fam : AMIFamilyInfo) (i : InstanceType) :
    (∀ bd : BlockDeviceMapping,
      (i.provider.blockDeviceMappings.getD []).find?
          (fun b => b.deviceName == fam.ephemeralBlockDevice) = some bd →
      (computeResources enablePodENI vpcLimits fam i).lookup "ephemeral-storage" =
        some bd.volumeSize) ∧
    ((∀ bd ∈ i.provider.blockDeviceMappings.getD [],
        bd.deviceName ≠ fam.ephemeralBlockDevice) →
      (computeResources enablePodENI vpcLimits fam i).lookup "ephemeral-storage" =
        some fam.defaultVolumeSize) := by
  have hlook : (computeResources enablePodENI vpcLimits fam i).lookup "ephemeral-storage"
      = some (ephemeralStorage fam i) := by
    simp [computeResources, List.lookup]
  rcases hb : i.provider.blockDeviceMappings with _ | bds
  · refine ⟨fun bd hbd => ?_, fun _ => ?_⟩
    · simp at hbd
    · rw [hlook]; simp [ephemeralStorage, hb]
  · refine ⟨fun bd hbd => ?_, fun hall => ?_⟩
    · simp only [Option.getD_some] at hbd
      rw [hlook]
      simp [ephemeralStorage, hb, hbd]
    · simp only [Option.getD_some] at hall
      have hnone : bds.find? (fun b => b.deviceName == fam.ephemeralBlockDevice) = none := by
        rw [List.find?_eq_none]
        intro x hx
        simpa using hall x hx
      rw [hlook]
      simp [ephemeralStorage, hb, hnone]

/-- Witness for C7 at concrete inputs: a matching override of size 40 wins
over the default 20; with no overrides the default 20 is used. -/
theorem ephemeral_storage_entry_witness :
    (computeResources false (fun _ => none) famA
      { simpleInstance "m5.large" 2 8192 3 10 with
          provider := ⟨none, some [⟨"/dev/xvda", 40⟩]⟩ }).lookup "ephemeral-storage"
      = some 40 ∧
    (computeResources false (fun _ => none) famA
      (simpleInstance "m5.large" 2 8192 3 10)).lookup "ephemeral-storage" = some 20 :=
  ⟨(ephemeral_storage_entry false (fun _ => none) famA _).1 ⟨"/dev/xvda", 40⟩ (by decide),
   (ephemeral_storage_entry false (fun _ => none) famA _).2 (by decide)⟩

/-- C9: `Price()` equals
`1×vCPU + (1/1024)×memoryMiB + 5×gpuCount + 5×inferenceAcceleratorCount +
(1/100)×localStorageGiB`, an absent section contributing 0; and with all
other inputs held fixed it is strictly increasing in the vCPU count. -/
theorem price_formula_and_monotonicity (i : InstanceType) :
    Price i =
      1 * (i.info.vCpuInfo.defaultVCpus : ℚ) +
        (1 / 1024) * (i.info.memoryInfo.sizeInMiB : ℚ) +
        5 * ((((i.info.gpuInfo.map GpuInfo.gpus).getD []).map
              (fun g => g.count.getD 0)).sum : ℚ) +
        5 * ((((i.info.inferenceAcceleratorInfo.map
                InferenceAcceleratorInfo.accelerators).getD []).map
              (fun a => a.count.getD 0)).sum : ℚ) +
        (1 / 100) * (((i.info.instanceStorageInfo.map
              InstanceStorageInfo.totalSizeInGB).getD 0 : Int) : ℚ) ∧
    (∀ v₁ v₂ : Int, v₁ < v₂ → Price (setVCpus i v₁) < Price (setVCpus i v₂)) := by
  constructor
  · rcases hg : i.info.gpuInfo with _ | gi <;>
      rcases hacc : i.info.inferenceAcceleratorInfo with _ | acc <;>
      rcases hst : i.info.instanceStorageInfo with _ | st <;>
      simp only [Price, hg, hacc, hst, foldl_gpuCount, foldl_accCount, Option.map_none',
        Option.map_some', Option.getD_none, Option.getD_some, List.map_nil,
        List.sum_nil] <;>
      push_cast <;>
      (try simp only [List.map_map, Function.comp_def]) <;> ring
  · intro v₁ v₂ hv
    have hcast : (v₁ : ℚ) < (v₂ : ℚ) := by exact_mod_cast hv
    simp only [Price, setVCpus]
    linarith

/-- Witness for C9's monotonicity clause at concrete vCPU counts 2 < 3. -/
theorem price_formula_and_monotonicity_witness :
    Price (setVCpus (simpleInstance "m5.large" 2 8192 3 10) 2) <
      Price (setVCpus (simpleInstance "m5.large" 2 8192 3 10) 3) :=
  (price_formula_and_monotonicity (simpleInstance "m5.large" 2 8192 3 10)).2 2 3
    (by decide)

/-- The instance type named `"metal"` (no separator in the name). -/
def itMetal : InstanceType := simpleInstance "metal" 2 8192 3 10

/-- An instance type whose metadata reports a single GPU descriptor. -/
def itGPU : InstanceType :=
  { simpleInstance "p3.8xlarge" 32 249856 8 30 with
      info := { simpleInfo "p3.8xlarge" 32 249856 8 30 with
        gpuInfo := some ⟨[⟨some "A100", some "NVIDIA", some 8, some 40960⟩]⟩ } }

/-- An instance type reporting only the unrecognized architecture
`"graviton3x"`. -/
def itGrav : InstanceType :=
  { simpleInstance "m5.large" 2 8192 3 10 with
      info := { simpleInfo "m5.large" 2 8192 3 10 with
        processorInfo := ⟨["graviton3x"]⟩ } }

/-- C6: the family and size labels are present exactly when the
machine-type name splits on the separator into exactly two parts, with
family the first and size the second part; otherwise both labels are
omitted.  `"m5.large"` splits into `["m5", "large"]` and `"metal"` does
not split into two parts. -/
theorem family_size_labels_split (i : InstanceType) :
    (∀ family size : String, splitDot i.info.instanceType = [family, size] →
      (computeRequirements i).lookup InstanceFamilyLabelKey = some [family] ∧
      (computeRequirements i).lookup InstanceSizeLabelKey = some [size]) ∧
    ((splitDot i.info.instanceType).length ≠ 2 →
      (computeRequirements i).lookup InstanceFamilyLabelKey = none ∧
      (computeRequirements i).lookup InstanceSizeLabelKey = none) ∧
    splitDot "m5.large" = ["m5", "large"] ∧
    splitDot "metal" = ["metal"] := by
  have hbaseF : (baseRequirements i).lookup InstanceFamilyLabelKey = none :=
    lookup_base_ne i _ (by decide) (by decide) (by decide) (by decide) (by decide)
      (by decide) (by decide)
  have hbaseS : (baseRequirements i).lookup InstanceSizeLabelKey = none :=
    lookup_base_ne i _ (by decide) (by decide) (by decide) (by decide) (by decide)
      (by decide) (by decide)
  refine ⟨fun family size hsp => ?_, fun hlen => ?_, by decide, by decide⟩
  · have hfs : familySizeRequirements i =
        [(InstanceFamilyLabelKey, [family]), (InstanceSizeLabelKey, [size])] := by
      unfold familySizeRequirements; rw [hsp]
    constructor
    · rw [computeRequirements, List.append_assoc, lookup_append_of_left_none hbaseF,
        hfs, List.cons_append, lookup_cons_self]
    · rw [computeRequirements, List.append_assoc, lookup_append_of_left_none hbaseS,
        hfs, List.cons_append, lookup_cons_ne (by decide), List.cons_append,
        lookup_cons_self]
  · have hfs := familySizeRequirements_eq_nil i hlen
    constructor
    · rw [computeRequirements, List.append_assoc, lookup_append_of_left_none hbaseF,
        hfs, List.nil_append,
        lookup_gpu_ne i _ (by decide) (by decide) (by decide) (by decide)]
    · rw [computeRequirements, List.append_assoc, lookup_append_of_left_none hbaseS,
        hfs, List.nil_append,
        lookup_gpu_ne i _ (by decide) (by decide) (by decide) (by decide)]

/-- Witness for C6 at the concrete names `"m5.large"` and `"metal"`. -/
theorem family_size_labels_split_witness :
    ((computeRequirements it2).lookup InstanceFamilyLabelKey = some ["m5"] ∧
      (computeRequirements it2).lookup InstanceSizeLabelKey = some ["large"]) ∧
    ((computeRequirements itMetal).lookup InstanceFamilyLabelKey = none ∧
      (computeRequirements itMetal).lookup InstanceSizeLabelKey = none) :=
  ⟨(family_size_labels_split it2).1 "m5" "large" (by decide),
   (family_size_labels_split itMetal).2.1 (by decide)⟩

/-- C4: the four GPU descriptive labels appear exactly when the metadata
lists exactly one GPU descriptor (one distinct GPU model); name and
manufacturer values are lowercased with spaces replaced by hyphens, count
and memory are stringified integers; with several distinct models (or
none) all four labels are absent.  `"A100"` normalizes to `"a100"` and
`"NVIDIA"` to `"nvidia"`. -/
theorem gpu_labels_single_descriptor (i : InstanceType) :
    (∀ g : GpuDeviceInfo, i.info.gpuInfo = some ⟨[g]⟩ →
      (computeRequirements i).lookup InstanceGPUNameLabelKey =
          some [lowerKabobCase (g.name.getD "")] ∧
      (computeRequirements i).lookup InstanceGPUManufacturerLabelKey =
          some [lowerKabobCase (g.manufacturer.getD "")] ∧
      (computeRequirements i).lookup InstanceGPUCountLabelKey =
          some [toString (g.count.getD 0)] ∧
      (computeRequirements i).lookup InstanceGPUMemoryLabelKey =
          some [toString (g.memorySizeInMiB.getD 0)]) ∧
    ((∀ gi : GpuInfo, i.info.gpuInfo = some gi → gi.gpus.length ≠ 1) →
      (computeRequirements i).lookup InstanceGPUNameLabelKey = none ∧
      (computeRequirements i).lookup InstanceGPUManufacturerLabelKey = none ∧
      (computeRequirements i).lookup InstanceGPUCountLabelKey = none ∧
      (computeRequirements i).lookup InstanceGPUMemoryLabelKey = none) ∧
    lowerKabobCase "A100" = "a100" ∧
    lowerKabobCase "NVIDIA" = "nvidia" := by
  have hbase : ∀ a : String, (a == LabelInstanceTypeStable) = false →
      (a == LabelArchStable) = false → (a == LabelOSStable) = false →
      (a == LabelTopologyZone) = false → (a == LabelCapacityType) = false →
      (a == InstanceCPULabelKey) = false → (a == InstanceMemoryLabelKey) = false →
      (a == InstanceFamilyLabelKey) = false → (a == InstanceSizeLabelKey) = false →
      (computeRequirements i).lookup a =
        (gpuRequirements i).lookup a := by
    intro a h1 h2 h3 h4 h5 h6 h7 h8 h9
    rw [computeRequirements, List.append_assoc,
      lookup_append_of_left_none (lookup_base_ne i a h1 h2 h3 h4 h5 h6 h7),
      lookup_append_of_left_none (lookup_familySize_ne i a h8 h9)]
  refine ⟨fun g hg => ?_, fun hno => ?_, by decide, by decide⟩
  · have hgr : gpuRequirements i =
        [(InstanceGPUNameLabelKey, [lowerKabobCase (g.name.getD "")]),
         (InstanceGPUManufacturerLabelKey, [lowerKabobCase (g.manufacturer.getD "")]),
         (InstanceGPUCountLabelKey, [toString (g.count.getD 0)]),
         (InstanceGPUMemoryLabelKey, [toString (g.memorySizeInMiB.getD 0)])] := by
      unfold gpuRequirements; rw [hg]
    refine ⟨?_, ?_, ?_, ?_⟩
    · rw [hbase _ (by decide) (by decide) (by decide) (by decide) (by decide) (by decide)
        (by decide) (by decide) (by decide), hgr, lookup_cons_self]
    · rw [hbase _ (by decide) (by decide) (by decide) (by decide) (by decide) (by decide)
        (by decide) (by decide) (by decide), hgr, lookup_cons_ne (by decide),
        lookup_cons_self]
    · rw [hbase _ (by decide) (by decide) (by decide) (by decide) (by decide) (by decide)
        (by decide) (by decide) (by decide), hgr, lookup_cons_ne (by decide),
        lookup_cons_ne (by decide), lookup_cons_self]
    · rw [hbase _ (by decide) (by decide) (by decide) (by decide) (by decide) (by decide)
        (by decide) (by decide) (by decide), hgr, lookup_cons_ne (by decide),
        lookup_cons_ne (by decide), lookup_cons_ne (by decide), lookup_cons_self]
  · have hgr := gpuRequirements_eq_nil i hno
    refine ⟨?_, ?_, ?_, ?_⟩ <;>
      rw [hbase _ (by decide) (by decide) (by decide) (by decide) (by decide) (by decide)
        (by decide) (by decide) (by decide), hgr, List.lookup_nil]

/-- Witness for C4: the single-descriptor instance gets normalized GPU
labels; a GPU-free instance gets none. -/
theorem gpu_labels_single_descriptor_witness :
    ((computeRequirements itGPU).lookup InstanceGPUNameLabelKey = some ["a100"] ∧
      (computeRequirements itGPU).lookup InstanceGPUManufacturerLabelKey =
        some ["nvidia"] ∧
      (computeRequirements itGPU).lookup InstanceGPUCountLabelKey = some ["8"]) ∧
    (computeRequirements it2).lookup InstanceGPUNameLabelKey = none := by
  have h := (gpu_labels_single_descriptor itGPU).1
    ⟨some "A100", some "NVIDIA", some 8, some 40960⟩ rfl
  have hn := ((gpu_labels_single_descriptor it2).2.1
    (fun gi hgi => by simp [it2, simpleInstance, simpleInfo] at hgi)).1
  refine ⟨⟨?_, ?_, ?_⟩, hn⟩
  · rw [h.1]; decide
  · rw [h.2.1]; decide
  · rw [h.2.2.1]; decide

/-- C8: the architecture value is the canonical image of the first
reported identifier found in the static two-entry table
(`"x86_64" ↦ "amd64"`, `"arm64" ↦ "arm64"`); when no identifier is in the
table the value is the raw list rendered as a diagnostic string, which is
not a canonical architecture identifier. -/
theorem architecture_first_match_or_diagnostic (i : InstanceType) :
    (∀ (pre : List String) (a : String) (post : List String) (v : String),
      i.info.processorInfo.supportedArchitectures = pre ++ a :: post →
      (∀ b ∈ pre, AWSToKubeArchitectures.lookup b = none) →
      AWSToKubeArchitectures.lookup a = some v →
      architecture i = v) ∧
    ((∀ a ∈ i.info.processorInfo.supportedArchitectures,
        AWSToKubeArchitectures.lookup a = none) →
      architecture i = sprintStringSlice i.info.processorInfo.supportedArchitectures ∧
      architecture i ≠ ArchitectureAmd64 ∧ architecture i ≠ ArchitectureArm64) ∧
    AWSToKubeArchitectures.lookup "x86_64" = some "amd64" ∧
    AWSToKubeArchitectures.lookup "arm64" = some "arm64" := by
  refine ⟨fun pre a post v harchs hpre ha => ?_, fun hall => ?_, by decide, by decide⟩
  · unfold architecture
    rw [harchs, findSome?_pre_none pre a post hpre ha]
  · have hnone : (i.info.processorInfo.supportedArchitectures.findSome?
        (fun a => AWSToKubeArchitectures.lookup a)) = none :=
      List.findSome?_eq_none_iff.mpr hall
    have heq : architecture i =
        sprintStringSlice i.info.processorInfo.supportedArchitectures := by
      unfold architecture; rw [hnone]
    exact ⟨heq, heq ▸ (sprintStringSlice_ne_canonical _).1,
      heq ▸ (sprintStringSlice_ne_canonical _).2⟩

/-- Witness for C8: `["graviton3x"]` yields the diagnostic rendering
`"[graviton3x]"`, and `["x86_64"]` yields `"amd64"`. -/
theorem architecture_first_match_or_diagnostic_witness :
    architecture itGrav = "[graviton3x]" ∧ architecture it2 = "amd64" := by
  constructor
  · have h := ((architecture_first_match_or_diagnostic itGrav).2.1 (by decide)).1
    rw [h]; decide
  · exact (architecture_first_match_or_diagnostic it2).1 [] "x86_64" [] "amd64" rfl
      (by simp) (by decide)

/-- Counterexample to C1 as stated: at vCPU = 5 (5000 milli-CPU) the
source's CPU overhead is 182 milli-units, while the claim's exact band
formula `100 + Σ (min(total, end) − start) × rate` gives 365/2 = 182.5,
because the source truncates each band product to an integer. -/
theorem cpu_overhead_exact_band_counterexample :
    overheadCPUMilli it5 = 182 ∧
    specCPUOverheadQ (cpuMilli it5) = 365 / 2 ∧
    ((overheadCPUMilli it5 : ℚ) ≠ specCPUOverheadQ (cpuMilli it5)) := by
  have hc : cpuMilli it5 = 5000 := rfl
  have h1 : overheadCPUMilli it5 = 182 := by
    show overheadCPUMilliOf (cpuMilli it5) = 182
    rw [hc, overheadCPUMilliOf_eq]; decide
  have h2 : specCPUOverheadQ (cpuMilli it5) = 365 / 2 := by
    rw [hc]
    simp [specCPUOverheadQ, kubeReservedCPURanges, List.foldl, min_def]
    norm_num
  exact ⟨h1, h2, by rw [h1, h2]; norm_num⟩

/-- C1 (amended): the CPU entry of the computed overhead equals a fixed
base of 100 milli-units plus, for each band whose start is ≤ the
instance's total milli-CPU, the quantity
`⌊(min(total, band.end) − band.start) × band.rate⌋` — each band product
truncated to a whole milli count; bands entirely above the CPU value
contribute nothing, and vCPU = 2 yields exactly 170 milli-units. -/
theorem cpu_overhead_banded_floored (fam : AMIFamilyInfo) (i : InstanceType) :
    (computeOverhead fam i).lookup "cpu" = some (specCPUOverheadFloored (cpuMilli i)) ∧
    (i.info.vCpuInfo.defaultVCpus = 2 →
      (computeOverhead fam i).lookup "cpu" = some 170) := by
  have hlook : (computeOverhead fam i).lookup "cpu" = some (overheadCPUMilli i) := by
    simp [computeOverhead, List.lookup]
  refine ⟨?_, fun h2 => ?_⟩
  · rw [hlook]
    show some (overheadCPUMilliOf (cpuMilli i)) = _
    rw [overheadCPUMilliOf_eq_specFloored]
  · rw [hlook]
    show some (overheadCPUMilliOf (cpuMilli i)) = some 170
    have hc : cpuMilli i = 2000 := by rw [cpuMilli, h2]; decide
    rw [hc, overheadCPUMilliOf_eq]
    decide

/-- Witness for C1 (amended) at the 2-vCPU instance: 170 milli-units. -/
theorem cpu_overhead_banded_floored_witness :
    (computeOverhead famA it2).lookup "cpu" = some 170 :=
  (cpu_overhead_banded_floored famA it2).2 rfl

/-- Counterexample to C10 as stated: its total for vCPU = 5 is wrong — the
source gives 100 + 60 + 10 + 10 + 2 = 182 milli-units, not 177. -/
theorem cpu_overhead_trunc_total_counterexample :
    overheadCPUMilli it5 = 182 ∧ overheadCPUMilli it5 ≠ 177 := by
  have h1 : overheadCPUMilli it5 = 182 := by
    show overheadCPUMilliOf (cpuMilli it5) = 182
    have hc : cpuMilli it5 = 5000 := rfl
    rw [hc, overheadCPUMilliOf_eq]; decide
  exact ⟨h1, by rw [h1]; decide⟩

/-- C10 (amended): every band contribution is the band product truncated
toward zero to an integer milli count before being added (so the CPU
overhead is a whole number of milli-units); at vCPU = 5 the fourth band's
product is 2.5 milli-units and contributes 2, for a total of 182
milli-units. -/
theorem cpu_overhead_band_truncation (i : InstanceType)
    (h5 : i.info.vCpuInfo.defaultVCpus = 5) :
    overheadCPUMilli i = 182 ∧
    ((min (cpuMilli i) (2 ^ 31) - 4000 : Int) : ℚ) * (25 / 10000) = 5 / 2 ∧
    (((min (cpuMilli i) (2 ^ 31) - 4000 : Int) : ℚ) * (25 / 10000)).floor = 2 ∧
    (∀ j : InstanceType, overheadCPUMilli j = specCPUOverheadFloored (cpuMilli j)) := by
  have hc : cpuMilli i = 5000 := by rw [cpuMilli, h5]; decide
  have hm : (min (5000 : Int) (2 ^ 31) - 4000 : Int) = 1000 := by decide
  refine ⟨?_, ?_, ?_, fun j => overheadCPUMilliOf_eq_specFloored (cpuMilli j)⟩
  · show overheadCPUMilliOf (cpuMilli i) = 182
    rw [hc, overheadCPUMilliOf_eq]; decide
  · rw [hc, hm]; push_cast; norm_num
  · rw [hc, hm, floor_rate25]; decide

/-- Witness for C10 (amended) at the concrete 5-vCPU instance. -/
theorem cpu_overhead_band_truncation_witness :
    overheadCPUMilli it5 = 182 :=
  (cpu_overhead_band_truncation it5 rfl).1

end KarpenterAWS
